import Mathlib

/-!
Verification of the agriculture decision-support pipeline.

This file gives a shallow embedding of the query-processing core of the
repository (`src/main.py`, `src/agents/classifier_agent.py`,
`src/agents/translation_agent.py`, `src/agents/weather_agent.py`,
`src/agents/finance_agent.py`) and proves properties of it.

Modelling conventions:
* Python `str` values are modelled as `List Char` (`Txt`); `str.lower()` /
  `str.upper()` are modelled with `Char.toLower` / `Char.toUpper`, which act on
  the ASCII range (all keyword tables in the source are ASCII).
* Python floats are modelled as exact rationals (`ℚ`); the literals `0.3`,
  `0.2`, `0.8`, … become `mkRat 3 10`, `mkRat 2 10`, `mkRat 8 10`, ….
  Python's binary `min`/`max` become `pymin`/`pymax`.
* The regular expressions used by the classifier are all of the shape
  `lit₁.*lit₂.*…` (literals joined by `.*`); they are modelled as the list of
  their literal pieces, with `re.search` semantics given by `reSearch`
  (a `.` in these patterns matches any character except a newline).
* Effectful sub-agents (network calls, wall-clock time) are abstracted as
  oracle parameters; every code path exercised by a theorem below is fully
  embedded.
-/

attribute [local semireducible] Rat.mul Rat.inv

/-- Python strings, modelled as lists of characters. -/
abbrev Txt := List Char

/-- Convert a Lean string literal to the `Txt` model. -/
def str (s : String) : Txt := s.toList

/-- The ASCII whitespace characters recognised by Python's `str.split()` and
`\s` (the non-ASCII whitespace code points are not modelled; no table entry
and no claim involves them). -/
def isPySpace (c : Char) : Bool :=
  c == ' ' || c == '\t' || c == '\n' || c == '\r' || c == '\x0b' || c == '\x0c'

/-- Model of Python `str.lower()` (ASCII case mapping). -/
def pyLower (s : Txt) : Txt := s.map Char.toLower

/-- Model of Python `str.upper()` (ASCII case mapping). -/
def pyUpper (s : Txt) : Txt := s.map Char.toUpper

/-- Substring test: `containsT needle hay` models Python `needle in hay`. -/
def containsT (needle : Txt) : Txt → Bool
  | [] => needle.isPrefixOf ([] : Txt)
  | c :: s' => needle.isPrefixOf (c :: s') || containsT needle s'

/-- Helper for `wordCount`: the `Bool` records whether the previous character
was part of a word (i.e. not whitespace). -/
def wordCountGo : Bool → Txt → Nat
  | _, [] => 0
  | inWord, c :: cs =>
    if isPySpace c then wordCountGo false cs
    else (if inWord then 0 else 1) + wordCountGo true cs

/-- Model of `len(s.split())`: the number of maximal whitespace-free runs. -/
def wordCount (s : Txt) : Nat := wordCountGo false s

/-- Python `max(a, b)` on numbers (the second argument wins only when strictly
greater, which is value-irrelevant for numbers). -/
def pymax (a b : ℚ) : ℚ := if a < b then b else a

/-- Python `min(a, b)` on numbers. -/
def pymin (a b : ℚ) : ℚ := if b < a then b else a

/-- `scanFrom lit k stopNL s` scans `s` left to right for an occurrence of the
literal `lit`; when found it hands the rest of the string to `k`.  With
`stopNL := true` the scan stops at a newline (this is the `.*` of a pattern,
whose `.` does not match `'\n'`); with `stopNL := false` the scan is
unrestricted (the initial position search of `re.search`). -/
def scanFrom (lit : Txt) (k : Txt → Bool) (stopNL : Bool) : Txt → Bool
  | [] => lit.isPrefixOf ([] : Txt) && k []
  | c :: s' =>
    (lit.isPrefixOf (c :: s') && k ((c :: s').drop lit.length)) ||
    (!(stopNL && c == '\n') && scanFrom lit k stopNL s')

/-- Match the remaining literal pieces of a pattern, each preceded by `.*`
(gaps may not contain a newline). -/
def matchGaps : List Txt → Txt → Bool
  | [], _ => true
  | lit :: rest, s => scanFrom lit (matchGaps rest) true s

/-- `re.search` for a pattern given as its literal pieces `lit₁.*lit₂.*…`:
the first literal may start anywhere in the string, subsequent literals must
follow within the same newline-free stretch. -/
def reSearch : List Txt → Txt → Bool
  | [], _ => true
  | lit :: rest, s => scanFrom lit (matchGaps rest) false s

/-- A classifier pattern, written as the list of literal pieces that were
joined by `.*` in the source regular expression. -/
def pat (pieces : List String) : List Txt := pieces.map str

/-- Python `max(keys, key=f)`: fold keeping the current best, replacing it only
on a strictly greater key value, so the first maximum wins. -/
def pyMaxKey (f : String → Nat) (l : List String) (a : String) : String :=
  l.foldl (fun b c => if f b < f c then c else b) a

/-! ## `src/agents/classifier_agent.py` — `QueryClassifierAgent` -/

/-- `QueryClassifierAgent.category_keywords` (insertion order preserved). -/
def QueryClassifierAgent.category_keywords : List (String × List String) :=
  [("weather",
    ["weather", "rain", "rainfall", "temperature", "forecast", "climate",
     "sunny", "cloudy", "storm", "wind", "humidity", "monsoon"]),
   ("crop_recommendation",
    ["crop", "seed", "variety", "plant", "sow", "grow", "cultivation",
     "season", "kharif", "rabi", "zaid", "recommend", "suitable", "best"]),
   ("market_price",
    ["price", "rate", "market", "mandi", "cost", "sell", "buy",
     "wholesale", "retail", "commodity", "trading"]),
   ("irrigation",
    ["irrigation", "water", "watering", "drip", "sprinkler",
     "canal", "bore", "well", "pump", "timing"]),
   ("pest_disease",
    ["pest", "insect", "bug", "disease", "fungus", "virus", "bacteria",
     "leaf", "spot", "blight", "rot", "wilt", "aphid", "caterpillar",
     "yellow", "brown", "damage", "infestation"]),
   ("finance_policy",
    ["loan", "credit", "subsidy", "scheme", "policy", "government",
     "bank", "finance", "insurance", "compensation", "benefit",
     "kisan", "pmkisan", "fasal", "bima"])]

/-- `QueryClassifierAgent.question_patterns`; each regular expression is given
as its `.*`-separated literal pieces (a trailing `.*` contributes a trailing
empty literal). -/
def QueryClassifierAgent.question_patterns : List (String × List (List Txt)) :=
  [("weather",
    [pat ["weather", "forecast"], pat ["rain", "today"],
     pat ["temperature", "tomorrow"], pat ["will", "rain"],
     pat ["monsoon", "arrive"]]),
   ("crop_recommendation",
    [pat ["what", "crop", "grow"], pat ["which", "seed", "plant"],
     pat ["best", "variety"], pat ["recommend", "crop"],
     pat ["suitable", "season"]]),
   ("market_price",
    [pat ["price", "of", ""], pat ["cost", "per", ""],
     pat ["market", "rate"], pat ["how much", "sell"],
     pat ["current", "price"]]),
   ("irrigation",
    [pat ["when", "water"], pat ["how", "irrigate"],
     pat ["irrigation", "schedule"], pat ["water", "requirement"],
     pat ["frequency", "watering"]]),
   ("pest_disease",
    [pat ["pest", "problem"], pat ["disease", "crop"],
     pat ["insect", "attack"], pat ["leaf", "yellow"],
     pat ["plant", "sick"], pat ["spot", "on", "leaf"]]),
   ("finance_policy",
    [pat ["loan", "agriculture"], pat ["subsidy", "scheme"],
     pat ["government", "benefit"], pat ["insurance", "crop"],
     pat ["kisan", "scheme"]])]

/-- The fixed category list, in declaration order (the iteration order of the
`category_keywords` dict). -/
def categoryOrder : List String := QueryClassifierAgent.category_keywords.map (·.1)

/-- Keyword list of a category. -/
def keywordsOf (c : String) : List String :=
  (QueryClassifierAgent.category_keywords.lookup c).getD []

/-- Pattern list of a category. -/
def patternsOf (c : String) : List (List Txt) :=
  (QueryClassifierAgent.question_patterns.lookup c).getD []

/-- The score of one category on the lower-cased query: one point per keyword
occurring as a substring plus three points per matching pattern. -/
def scoreCat (c : String) (qLower : Txt) : Nat :=
  ((keywordsOf c).filter (fun kw => containsT (str kw) qLower)).length +
    3 * ((patternsOf c).filter (fun p => reSearch p qLower)).length

/-- `max(category_scores, key=category_scores.get)`: the first category of the
declaration order attaining the maximal score.  (Python `max` raises on an
empty dict; `categoryOrder` is non-empty so the first branch is inert.) -/
def bestCategory (qLower : Txt) : String :=
  match categoryOrder with
  | [] => "unknown"
  | c :: cs => pyMaxKey (fun cat => scoreCat cat qLower) cs c

/-- The confidence value computed by `classify` before the low-confidence
override: `min(max_score / max(total_words * 0.3, 1), 1.0)`. -/
def rawConfidence (query : Txt) : ℚ :=
  pymin ((scoreCat (bestCategory (pyLower query)) (pyLower query) : ℚ) /
      pymax ((wordCount query : ℚ) * mkRat 3 10) (mkRat 1 1))
    (mkRat 1 1)

/-- The record returned by `QueryClassifierAgent.classify`. -/
structure Classification where
  category : String
  confidence : ℚ
  scores : List (String × Nat)
deriving DecidableEq

/-- `QueryClassifierAgent.classify` (the `try` body; none of the embedded
operations can fault, so the `except` branch of the source is unreachable in
the model). -/
def QueryClassifierAgent.classify (query : Txt) : Classification :=
  let query_lower := pyLower query
  let category_scores := categoryOrder.map (fun c => (c, scoreCat c query_lower))
  let best_category := bestCategory query_lower
  let confidence := rawConfidence query
  if confidence < mkRat 3 10 then
    { category := "unknown", confidence := mkRat 2 10, scores := category_scores }
  else
    { category := best_category, confidence := confidence, scores := category_scores }

/-! ## Word-boundary substitution (model of `re.sub(r'\b…\b', …)`) -/

/-- Word characters for the `\b` boundary of Python's `re` module: ASCII
alphanumerics, the underscore, and (as an approximation of Unicode word
characters) every non-ASCII code point — all glossary terms consist of
non-ASCII letters, for which this coincides with Python. -/
def isWordChar (c : Char) : Bool :=
  c.isAlphanum || c == '_' || decide (0x7f < c.toNat)

/-- Word-character status of the first character (a string edge counts as a
non-word position). -/
def headIsWord : Txt → Bool
  | [] => false
  | c :: _ => isWordChar c

/-- Case-insensitive prefix test (ASCII case folding, as in `re.IGNORECASE`
over the ASCII phrases of the source tables). -/
def ciPrefix : Txt → Txt → Bool
  | [], _ => true
  | _ :: _, [] => false
  | a :: as, b :: bs => (a.toLower == b.toLower) && ciPrefix as bs

/-- Prefix test, optionally case-insensitive. -/
def matchesAt (ci : Bool) (term s : Txt) : Bool :=
  if ci then ciPrefix term s else term.isPrefixOf s

/-- Left-to-right, non-overlapping, word-boundary-delimited global replacement
of the non-empty literal `t0 :: tRest` by `repl`; the `Bool` argument records
whether the previous character of the original text was a word character. -/
def reSubWB (ci : Bool) (t0 : Char) (tRest : List Char) (repl : Txt) :
    Bool → Txt → Txt
  | _, [] => []
  | prevW, c :: rest =>
    if matchesAt ci (t0 :: tRest) (c :: rest) &&
        (prevW != isWordChar t0) &&
        (isWordChar (tRest.getLastD t0) != headIsWord (rest.drop tRest.length)) then
      repl ++ reSubWB ci t0 tRest repl (isWordChar (tRest.getLastD t0)) (rest.drop tRest.length)
    else
      c :: reSubWB ci t0 tRest repl (isWordChar c) rest
termination_by _ s => s.length
decreasing_by
  · simp [List.length_drop]; omega
  · simp

/-- `re.sub(r'\b' + re.escape(term) + r'\b', repl, s)` (with optional
`re.IGNORECASE`); an empty term never occurs in the source tables. -/
def reSubWordBound (ci : Bool) (term repl s : Txt) : Txt :=
  match term with
  | [] => s
  | t0 :: tRest => reSubWB ci t0 tRest repl false s

/-- Sequentially apply a substitution table (dict iteration order). -/
def applySubs (ci : Bool) (tbl : List (Txt × Txt)) (s : Txt) : Txt :=
  tbl.foldl (fun acc p => reSubWordBound ci p.1 p.2 acc) s

/-- Model of `re.sub(r'\s+', ' ', s)`: collapse whitespace runs to one blank;
the `Bool` records whether the previous character was whitespace. -/
def collapseWS (prevSpace : Bool) : Txt → Txt
  | [] => []
  | c :: r =>
    if isPySpace c then
      (if prevSpace then collapseWS true r else ' ' :: collapseWS true r)
    else c :: collapseWS false r

/-- Model of Python `str.strip()`. -/
def stripT (s : Txt) : Txt :=
  ((s.dropWhile isPySpace).reverse.dropWhile isPySpace).reverse

/-! ## `src/agents/translation_agent.py` — `TranslationAgent` -/

/-- The mutable `self.current_context` of `TranslationAgent`. -/
structure TAContext where
  original_query : Txt
  detected_language : String
  translation_confidence : ℚ
deriving DecidableEq

/-- The context installed by `TranslationAgent.__init__`. -/
def TranslationAgent.initial_context : TAContext :=
  { original_query := str ""
    detected_language := "en"
    translation_confidence := mkRat 1 1 }

/-- `self.language_patterns`: language tag and the inclusive code-point range
of its script, in dict order. -/
def TranslationAgent.language_patterns : List (String × Nat × Nat) :=
  [("hi", 0x900, 0x97F), ("bn", 0x980, 0x9FF), ("te", 0xC00, 0xC7F),
   ("ta", 0xB80, 0xBFF), ("ml", 0xD00, 0xD7F), ("kn", 0xC80, 0xCFF),
   ("gu", 0xA80, 0xAFF), ("pa", 0xA00, 0xA7F)]

/-- `re.search(r'[lo-hi]', s)`: some character lies in the code-point range. -/
def hasCharInRange (lo hi : Nat) (s : Txt) : Bool :=
  s.any (fun c => decide (lo ≤ c.toNat) && decide (c.toNat ≤ hi))

/-- `TranslationAgent.detect_language`: Devanagari is checked first, then the
script ranges in table order; the default is `"en"`. -/
def TranslationAgent.detect_language (text : Txt) : String :=
  if hasCharInRange 0x900 0x97F text then "hi"
  else
    match TranslationAgent.language_patterns.find?
        (fun p => hasCharInRange p.2.1 p.2.2 text) with
    | some p => p.1
    | none => "en"

/-- `self.agriculture_terms['hi']`, in dict order. -/
def TranslationAgent.agriculture_terms_hi : List (Txt × Txt) :=
  [(str "फसल", str "crop"),
   (str "खेत", str "field"),
   (str "बारिश", str "rain"),
   (str "मौसम", str "weather"),
   (str "कीट", str "pest"),
   (str "बीमारी", str "disease"),
   (str "पानी", str "water"),
   (str "सिंचाई", str "irrigation"),
   (str "बाजार", str "market"),
   (str "दाम", str "price"),
   (str "योजना", str "scheme"),
   (str "सब्सिडी", str "subsidy"),
   (str "बीज", str "seed"),
   (str "खाद", str "fertilizer"),
   (str "मिट्टी", str "soil"),
   (str "धान", str "rice"),
   (str "गेहूं", str "wheat"),
   (str "कपास", str "cotton"),
   (str "टमाटर", str "tomato"),
   (str "आलू", str "potato"),
   (str "प्याज", str "onion"),
   (str "सब्जी", str "vegetable"),
   (str "फल", str "fruit"),
   (str "किसान", str "farmer"),
   (str "खेती", str "farming"),
   (str "उपज", str "yield"),
   (str "नुकसान", str "damage"),
   (str "लाभ", str "profit"),
   (str "आय", str "income"),
   (str "तापमान", str "temperature"),
   (str "नमी", str "humidity"),
   (str "हवा", str "wind")]

/-- `TranslationAgent.translate_to_english`. -/
def TranslationAgent.translate_to_english (text : Txt) (source_lang : String) : Txt :=
  if source_lang = "hi" then
    let english_text := applySubs false TranslationAgent.agriculture_terms_hi text
    let english_text :=
      if containsT (str "क्या") text then
        if containsT (str "होगी") text || containsT (str "है") text then
          if containsT (str "होगी") text then str "Will there be " ++ english_text
          else str "Is there " ++ english_text
        else str "What " ++ english_text
      else if containsT (str "कैसे") text then str "How to " ++ english_text
      else if containsT (str "कब") text then str "When " ++ english_text
      else if containsT (str "कहाँ") text then str "Where " ++ english_text
      else if containsT (str "कौन") text then str "Which " ++ english_text
      else if containsT (str "कितना") text then str "How much " ++ english_text
      else english_text
    stripT (collapseWS false english_text)
  else
    str "[" ++ pyUpper (str source_lang) ++ str "] " ++ text

/-- The dict returned by `TranslationAgent.process`. -/
structure TranslationOutcome where
  language : String
  translated_query : Txt
  confidence : ℚ
deriving DecidableEq

/-- `TranslationAgent.process`: detect the language, store the new
`current_context` (returned as the first component), and translate to English
when needed.  The embedded body is total, so the `except` branch of the source
is unreachable in the model. -/
def TranslationAgent.process (current_context : TAContext) (query : Txt) :
    TAContext × TranslationOutcome :=
  let original_language := TranslationAgent.detect_language query
  let new_context : TAContext :=
    { original_query := query
      detected_language := original_language
      translation_confidence :=
        if original_language = "en" then mkRat 1 1 else mkRat 8 10 }
  if original_language = "en" then
    (new_context, { language := "en", translated_query := query, confidence := mkRat 1 1 })
  else
    (new_context,
     { language := original_language
       translated_query := TranslationAgent.translate_to_english query original_language
       confidence := mkRat 8 10 })

/-- `phrase_translations` of `TranslationAgent.translate_response`. -/
def TranslationAgent.phrase_translations : List (Txt × Txt) :=
  [(str "Based on your query", str "आपके प्रश्न के आधार पर"),
   (str "Here are some recommendations", str "यहाँ कुछ सुझाव हैं"),
   (str "You should", str "आपको चाहिए"),
   (str "It is recommended", str "सुझाव दिया जाता है"),
   (str "For better results", str "बेहतर परिणाम के लिए"),
   (str "Contact your local", str "अपने स्थानीय से संपर्क करें"),
   (str "agriculture officer", str "कृषि अधिकारी"),
   (str "weather forecast", str "मौसम पूर्वानुमान"),
   (str "market price", str "बाजार भाव"),
   (str "good quality", str "अच्छी गुणवत्ता"),
   (str "proper irrigation", str "उचित सिंचाई"),
   (str "organic pesticides", str "जैविक कीटनाशक"),
   (str "field hygiene", str "खेत की सफाई")]

/-- `{v: k for k, v in self.agriculture_terms['hi'].items()}` (the English
values are pairwise distinct, so the comprehension keeps dict order). -/
def TranslationAgent.english_to_hindi : List (Txt × Txt) :=
  TranslationAgent.agriculture_terms_hi.map (fun p => (p.2, p.1))

/-- `TranslationAgent.translate_response`: identity for `"en"`, phrase- and
term-level substitution for `"hi"`, and a fixed disclaimer suffix for any
other tag. -/
def TranslationAgent.translate_response (response : Txt) (target_lang : String) : Txt :=
  if target_lang = "en" then response
  else if target_lang = "hi" then
    let hindi_response := applySubs true TranslationAgent.phrase_translations response
    applySubs true TranslationAgent.english_to_hindi hindi_response
  else
    response ++ str " (Note: Full translation to " ++ pyUpper (str target_lang) ++
      str " not available)"

/-! ## Shared result types — `src/main.py` -/

/-- The `QueryCategory` enum of `src/main.py`. -/
inductive QueryCategory where
  | translation
  | weather
  | crop_recommendation
  | market_price
  | irrigation
  | pest_disease
  | finance_policy
  | unknown
deriving DecidableEq

/-- `QueryCategory(value)`: the enum member with the given string value, or
`none` (the source raises `ValueError`, caught by the orchestrator). -/
def queryCategoryOfString (s : String) : Option QueryCategory :=
  if s = "translation" then some .translation
  else if s = "weather" then some .weather
  else if s = "crop_recommendation" then some .crop_recommendation
  else if s = "market_price" then some .market_price
  else if s = "irrigation" then some .irrigation
  else if s = "pest_disease" then some .pest_disease
  else if s = "finance_policy" then some .finance_policy
  else if s = "unknown" then some .unknown
  else none

/-- Abstract stand-in for the optional structured `data` payload of a
response (a JSON-like dict); no claim inspects its contents. -/
inductive Payload where
  | dict : List (String × String) → Payload
deriving DecidableEq

/-- The `QueryResponse` dataclass of `src/main.py`. -/
structure QueryResponse where
  category : QueryCategory
  response : Txt
  language : String
  source : String
  confidence : ℚ
  data : Option Payload := none
deriving DecidableEq

/-- The `context` dict handed to every sub-agent by
`ManagerAgent.route_to_agent`. -/
structure AgentContext where
  query : Txt
  location : Option String
deriving DecidableEq

/-! ## `src/agents/finance_agent.py` — `FinancePolicyAgent` -/

/-- One entry of the `schemes_database` dict. -/
structure Scheme where
  full_name : Txt
  type : Txt
  amount : Txt
  eligibility : List Txt
  benefits : List Txt
  application_process : List Txt
  documents : List Txt
  website : Txt
deriving DecidableEq

/-- Render a natural number the way a Python f-string renders an `int`. -/
def natTxt (n : Nat) : Txt := str (toString n)

/-- Python `s.replace('_', ' ')` on the scheme type tags. -/
def underscoreToSpace (s : Txt) : Txt := s.map (fun c => if c == '_' then ' ' else c)

/-- Helper for `pyTitle`: the `Bool` records whether the previous character
was a letter. -/
def pyTitleGo : Bool → Txt → Txt
  | _, [] => []
  | prevAlpha, c :: cs =>
    (if c.isAlpha then (if prevAlpha then c.toLower else c.toUpper) else c) ::
      pyTitleGo c.isAlpha cs

/-- Model of Python `str.title()` (ASCII letters; the strings it is applied to
are ASCII). -/
def pyTitle (s : Txt) : Txt := pyTitleGo false s

/-- A `for`-loop appending `f"• {item}\n"` for every item. -/
def bulletLines (items : List Txt) : Txt :=
  (items.map (fun i => str "‚Ä¢ " ++ i ++ str "\n")).flatten
/-- `self.schemes_database` of `FinancePolicyAgent.__init__`, in dict order. -/
def FinancePolicyAgent.schemes_database : List (String × Scheme) :=
  [("pm_kisan",
   { full_name := str "Pradhan Mantri Kisan Samman Nidhi"
     type := str "direct_benefit"
     amount := str "6000 per year"
     eligibility :=
       [str "All landholding farmers",
        str "Small and marginal farmers",
        str "Must have valid Aadhaar card",
        str "Bank account linked to Aadhaar"]
     benefits :=
       [str "\u201a\u00c7\u03c02000 every 4 months (3 installments per year)",
        str "Direct cash transfer to bank account",
        str "No need to visit bank or office"]
     application_process :=
       [str "Visit PM Kisan portal or CSC center",
        str "Fill application with Aadhaar, bank details",
        str "Upload land documents",
        str "Submit and track status online"]
     documents :=
       [str "Aadhaar card",
        str "Bank account details",
        str "Land ownership documents"]
     website := str "pmkisan.gov.in" }),
  ("fasal_bima",
   { full_name := str "Pradhan Mantri Fasal Bima Yojana"
     type := str "crop_insurance"
     amount := str "Up to sum insured"
     eligibility :=
       [str "All farmers (sharecroppers and tenant farmers included)",
        str "Must have insurable interest in crop",
        str "Voluntary for non-loanee farmers"]
     benefits :=
       [str "Coverage against natural disasters",
        str "Low premium rates (1.5-5% of sum insured)",
        str "Quick settlement of claims",
        str "Post-harvest losses coverage"]
     application_process :=
       [str "Contact bank, insurance company or CSC",
        str "Fill application form",
        str "Pay premium amount",
        str "Get insurance certificate"]
     documents :=
       [str "Aadhaar card",
        str "Bank account details",
        str "Land records",
        str "Sowing certificate"]
     website := str "pmfby.gov.in" }),
  ("kisan_credit_card",
   { full_name := str "Kisan Credit Card"
     type := str "credit_facility"
     amount := str "Based on land holding and crops"
     eligibility :=
       [str "All farmers (owner cultivators)",
        str "Tenant farmers and sharecroppers",
        str "Self Help Group members"]
     benefits :=
       [str "Easy access to credit at low interest rates",
        str "Flexible repayment schedule",
        str "No collateral required for small loans",
        str "Insurance coverage included"]
     application_process :=
       [str "Visit nearest bank branch",
        str "Fill KCC application form",
        str "Submit required documents",
        str "Bank verification and approval"]
     documents :=
       [str "Identity proof",
        str "Address proof",
        str "Land documents",
        str "Income certificate"]
     website := str "agriculture.gov.in" }),
  ("soil_health_card",
   { full_name := str "Soil Health Card Scheme"
     type := str "advisory_service"
     amount := str "Free of cost"
     eligibility :=
       [str "All farmers",
        str "Individual or group applications"]
     benefits :=
       [str "Free soil testing",
        str "Fertilizer recommendations",
        str "Soil health status report",
        str "Improves crop productivity"]
     application_process :=
       [str "Contact local agriculture department",
        str "Provide soil samples",
        str "Get soil health card within 2 weeks"]
     documents :=
       [str "Identity proof",
        str "Land documents"]
     website := str "soilhealth.dac.gov.in" }),
  ("msps",
   { full_name := str "Minimum Support Price"
     type := str "price_support"
     amount := str "Varies by crop and season"
     eligibility :=
       [str "All farmers",
        str "Registered with procurement agencies"]
     benefits :=
       [str "Guaranteed minimum price for produce",
        str "Protection against market fluctuations",
        str "Direct purchase by government agencies"]
     application_process :=
       [str "Register with local procurement center",
        str "Bring produce during procurement season",
        str "Get payment as per MSP rates"]
     documents :=
       [str "Identity proof",
        str "Land documents",
        str "Produce quality certificate"]
     website := str "cacp.dacnet.nic.in" }),
  ("pm_kusum",
   { full_name := str "PM Kisan Urja Suraksha evam Utthaan Mahabhiyan"
     type := str "solar_subsidy"
     amount := str "60% central subsidy + 30% state subsidy"
     eligibility :=
       [str "All farmers and farmer groups",
        str "Cooperative societies",
        str "Panchayats and FPOs"]
     benefits :=
       [str "Solar pump installation subsidy",
        str "Grid-connected solar power plants",
        str "Solarization of existing pumps",
        str "Additional income from power sale"]
     application_process :=
       [str "Apply through state nodal agency",
        str "Technical feasibility assessment",
        str "Installation by empaneled vendors",
        str "Subsidy disbursement after completion"]
     documents :=
       [str "Identity proof",
        str "Land documents",
        str "Electricity connection details"]
     website := str "pmkusum.mnre.gov.in" })]

/-- `self.scheme_keywords`, in dict order. -/
def FinancePolicyAgent.scheme_keywords : List (String × List String) :=
  [("pm_kisan", ["pm kisan", "kisan samman", "direct benefit", "cash transfer", "6000"]),
  ("fasal_bima", ["crop insurance", "fasal bima", "insurance", "natural disaster"]),
  ("kisan_credit_card", ["kcc", "credit card", "loan", "credit facility"]),
  ("soil_health_card", ["soil health", "soil test", "fertilizer recommendation"]),
  ("msps", ["msp", "minimum support price", "procurement"]),
  ("pm_kusum", ["solar", "kusum", "solar pump", "renewable energy"])]

/-- `self.current_msp`, in dict order. -/
def FinancePolicyAgent.current_msp : List (String × Nat) :=
  [("wheat", 2125),
  ("rice", 2040),
  ("cotton", 6080),
  ("sugarcane", 315),
  ("maize", 1962),
  ("bajra", 2500),
  ("jowar", 3180)]

/-- Total model of the Python dict indexing `self.schemes_database[id]`; every
index used in the source is a present key. -/
def FinancePolicyAgent.getScheme (id : String) : Scheme :=
  (FinancePolicyAgent.schemes_database.lookup id).getD
    { full_name := [], type := [], amount := [], eligibility := [],
      benefits := [], application_process := [], documents := [], website := [] }

/-- `FinancePolicyAgent.extract_scheme`: the first scheme (dict order) one of
whose keywords occurs in the lower-cased query. -/
def FinancePolicyAgent.extract_scheme (query : Txt) : Option String :=
  (FinancePolicyAgent.scheme_keywords.find?
      (fun p => p.2.any (fun kw => containsT (str kw) query))).map (·.1)

/-- `FinancePolicyAgent.extract_crop_for_msp`: the first MSP crop (dict order)
occurring in the query. -/
def FinancePolicyAgent.extract_crop_for_msp (query : Txt) : Option String :=
  (FinancePolicyAgent.current_msp.find?
      (fun p => containsT (str p.1) query)).map (·.1)

/-- `FinancePolicyAgent.get_scheme_details`. -/
def FinancePolicyAgent.get_scheme_details (scheme_id : String) : Txt :=
  match FinancePolicyAgent.schemes_database.lookup scheme_id with
  | none => str "Detailed information not available for the requested scheme."
  | some scheme =>
    str "üèõÔ∏è " ++ scheme.full_name ++ str "\n\n" ++
    str "Type: " ++ pyTitle (underscoreToSpace scheme.type) ++ str "\n" ++
    str "Benefit Amount: " ++ scheme.amount ++ str "\n\n" ++
    str "‚úÖ Eligibility Criteria:\n" ++
    bulletLines scheme.eligibility ++
    str "\nüí∞ Benefits:\n" ++
    bulletLines scheme.benefits ++
    str "\nüìù Application Process:\n" ++
    bulletLines scheme.application_process ++
    str "\nüìã Required Documents:\n" ++
    bulletLines scheme.documents ++
    str "\nüåê Official Website: " ++ scheme.website ++ str "\n" ++
    str "\nüí° Tip: Contact your local agriculture extension officer for assistance with application."

/-- The `else` branch of `get_msp_info`: the full MSP rate listing. -/
def FinancePolicyAgent.msp_listing : Txt :=
  str "Current MSP Rates (2024-25):\n" ++
  (FinancePolicyAgent.current_msp.map (fun p =>
      str "‚Ä¢ " ++ pyTitle (str p.1) ++ str ": ‚Çπ" ++
      natTxt p.2 ++ str " per quintal\n")).flatten ++
  str "\n"

/-- `FinancePolicyAgent.get_msp_info`. -/
def FinancePolicyAgent.get_msp_info (crop : Option String) : Txt :=
  str "üí∞ Minimum Support Price (MSP) Information:\n\n" ++
  (match crop with
   | some c =>
     match FinancePolicyAgent.current_msp.lookup c with
     | some msp_rate =>
       pyTitle (str c) ++ str " MSP: ‚Çπ" ++ natTxt msp_rate ++
       str " per quintal\n\n" ++
       str "üìç Where to sell at MSP:\n" ++
       str "‚Ä¢ Government procurement centers\n" ++
       str "‚Ä¢ Cooperative societies\n" ++
       str "‚Ä¢ FCI (Food Corporation of India) centers\n" ++
       str "‚Ä¢ State agencies\n\n"
     | none => FinancePolicyAgent.msp_listing
   | none => FinancePolicyAgent.msp_listing) ++
  str "‚ÑπÔ∏è Important Information:\n" ++
  str "‚Ä¢ MSP is announced by Government of India\n" ++
  str "‚Ä¢ Procurement is done through registered centers\n" ++
  str "‚Ä¢ Quality standards must be met\n" ++
  str "‚Ä¢ Bring proper documentation for sale\n"

/-- `FinancePolicyAgent.get_credit_schemes_info`. -/
def FinancePolicyAgent.get_credit_schemes_info : Txt :=
  let kcc_scheme := FinancePolicyAgent.getScheme "kisan_credit_card"
  str "üè¶ Agricultural Credit Schemes:\n\n" ++
  str "1. **" ++ kcc_scheme.full_name ++ str "**\n" ++
  str "‚Ä¢ Credit limit based on land holding\n" ++
  str "‚Ä¢ Interest rate: 7% (with 3% subvention)\n" ++
  str "‚Ä¢ Additional 3% interest subvention for timely repayment\n" ++
  str "‚Ä¢ Website: " ++ kcc_scheme.website ++ str "\n\n" ++
  str "2. **Other Credit Sources:**\n" ++
  str "‚Ä¢ Cooperative banks and societies\n" ++
  str "‚Ä¢ Regional Rural Banks (RRBs)\n" ++
  str "‚Ä¢ Commercial banks\n" ++
  str "‚Ä¢ Microfinance institutions\n\n" ++
  str "üìã General Requirements:\n" ++
  str "‚Ä¢ Valid identity and address proof\n" ++
  str "‚Ä¢ Land ownership/cultivation documents\n" ++
  str "‚Ä¢ Income certificate\n" ++
  str "‚Ä¢ Bank account (preferably in the same bank)\n"

/-- `FinancePolicyAgent.get_insurance_schemes_info`. -/
def FinancePolicyAgent.get_insurance_schemes_info : Txt :=
  let pmfby_scheme := FinancePolicyAgent.getScheme "fasal_bima"
  str "üõ°Ô∏è Agricultural Insurance Schemes:\n\n" ++
  str "1. **" ++ pmfby_scheme.full_name ++ str " (PMFBY)**\n" ++
  str "‚Ä¢ Premium rates: Kharif 2%, Rabi 1.5%, Commercial crops 5%\n" ++
  str "‚Ä¢ Coverage: All stages from pre-sowing to post-harvest\n" ++
  str "‚Ä¢ Claims settled based on Crop Cutting Experiments (CCE)\n" ++
  str "‚Ä¢ Website: " ++ pmfby_scheme.website ++ str "\n\n" ++
  str "2. **Other Insurance Options:**\n" ++
  str "‚Ä¢ Weather-based Crop Insurance Scheme (WBCIS)\n" ++
  str "‚Ä¢ Coconut Palm Insurance Scheme (CPIS)\n" ++
  str "‚Ä¢ Unified Package Insurance Scheme (UPIS)\n\n" ++
  str "‚è∞ Important Deadlines:\n" ++
  str "‚Ä¢ Kharif: Apply before July 31st\n" ++
  str "‚Ä¢ Rabi: Apply before December 31st\n" ++
  str "‚Ä¢ Commercial crops: Before last date of sowing\n"

/-- `FinancePolicyAgent.get_general_schemes_info`. -/
def FinancePolicyAgent.get_general_schemes_info : Txt :=
  str "üåæ Major Agricultural Schemes Overview:\n\n" ++
  str "1. **Direct Benefits:**\n" ++
  str "‚Ä¢ " ++ (FinancePolicyAgent.getScheme "pm_kisan").full_name ++
  str " - ‚Çπ6000/year\n\n" ++
  str "2. **Credit & Insurance:**\n" ++
  str "‚Ä¢ " ++ (FinancePolicyAgent.getScheme "kisan_credit_card").full_name ++ str "\n" ++
  str "‚Ä¢ " ++ (FinancePolicyAgent.getScheme "fasal_bima").full_name ++ str "\n\n" ++
  str "3. **Technology & Infrastructure:**\n" ++
  str "‚Ä¢ " ++ (FinancePolicyAgent.getScheme "pm_kusum").full_name ++
  str " (Solar)\n" ++
  str "‚Ä¢ " ++ (FinancePolicyAgent.getScheme "soil_health_card").full_name ++ str "\n\n" ++
  str "4. **Price Support:**\n" ++
  str "‚Ä¢ Minimum Support Price (MSP) for 23 crops\n" ++
  str "‚Ä¢ Market intervention schemes\n\n" ++
  str "üìû For More Information:\n" ++
  str "‚Ä¢ Visit local agriculture office\n" ++
  str "‚Ä¢ Call Kisan Call Center: 1800-180-1551\n" ++
  str "‚Ä¢ Check ministry websites: agriculture.gov.in\n"

/-- `FinancePolicyAgent.get_comprehensive_policy_info`. -/
def FinancePolicyAgent.get_comprehensive_policy_info : Txt :=
  str "üìä Agricultural Policy & Finance Overview:\n\n" ++
  str "üí∞ **Financial Support Available:**\n" ++
  str "‚Ä¢ Direct cash transfers (PM-Kisan)\n" ++
  str "‚Ä¢ Subsidized credit (KCC)\n" ++
  str "‚Ä¢ Crop insurance (PMFBY)\n" ++
  str "‚Ä¢ Input subsidies (fertilizers, seeds)\n" ++
  str "‚Ä¢ Equipment subsidies\n\n" ++
  str "üèõÔ∏è **Key Government Initiatives:**\n" ++
  str "‚Ä¢ Doubling farmers' income by 2024\n" ++
  str "‚Ä¢ Digital agriculture mission\n" ++
  str "‚Ä¢ Formation of Farmer Producer Organizations (FPOs)\n" ++
  str "‚Ä¢ e-NAM (electronic National Agriculture Market)\n\n" ++
  str "üì± **Digital Services:**\n" ++
  str "‚Ä¢ PM Kisan mobile app\n" ++
  str "‚Ä¢ Crop insurance app\n" ++
  str "‚Ä¢ e-NAM platform for online trading\n" ++
  str "‚Ä¢ Kisan Suvidha app for advisory services\n\n" ++
  str "‚ÑπÔ∏è **Important Contact Numbers:**\n" ++
  str "‚Ä¢ Kisan Call Center: 1800-180-1551\n" ++
  str "‚Ä¢ PM Kisan Helpline: 155261\n" ++
  str "‚Ä¢ Soil Health Card: 1800-180-1551\n"

/-- `FinancePolicyAgent.get_policy_info` (the `try` body is total: every
branch is a static-table lookup, so the `except` branch is unreachable in the
model). -/
def FinancePolicyAgent.get_policy_info (context : AgentContext) : QueryResponse :=
  let query := pyLower context.query
  let rc : Txt × ℚ :=
    match FinancePolicyAgent.extract_scheme query with
    | some specific_scheme =>
      (FinancePolicyAgent.get_scheme_details specific_scheme, mkRat 9 10)
    | none =>
      if containsT (str "msp") query || containsT (str "minimum support price") query then
        (FinancePolicyAgent.get_msp_info (FinancePolicyAgent.extract_crop_for_msp query),
         mkRat 8 10)
      else if [str "loan", str "credit", str "bank"].any (fun k => containsT k query) then
        (FinancePolicyAgent.get_credit_schemes_info, mkRat 7 10)
      else if [str "insurance", str "bima"].any (fun k => containsT k query) then
        (FinancePolicyAgent.get_insurance_schemes_info, mkRat 7 10)
      else if [str "subsidy", str "scheme", str "government"].any (fun k => containsT k query) then
        (FinancePolicyAgent.get_general_schemes_info, mkRat 6 10)
      else
        (FinancePolicyAgent.get_comprehensive_policy_info, mkRat 5 10)
  { category := .finance_policy
    response := rc.1
    language := "en"
    source := "india.gov.in"
    confidence := rc.2 }

/-! ## `src/agents/weather_agent.py` — `WeatherDataAgent` -/

/-- `WeatherDataAgent.get_weather_info`.  The location-free guard is embedded
exactly (Python `if not location` treats both a missing and an empty location
as absent); the remainder of the function performs network calls and float
formatting and is abstracted as the oracle `fetchRest`, applied to the
lower-cased query and the location. -/
def WeatherDataAgent.get_weather_info
    (fetchRest : Txt → String → QueryResponse) (context : AgentContext) :
    QueryResponse :=
  let query := pyLower context.query
  let noLocation : QueryResponse :=
    { category := .weather
      response := str "Please provide a location to get weather information."
      language := "en"
      source := "weather_agent"
      confidence := 0 }
  match context.location with
  | none => noLocation
  | some location => if location = "" then noLocation else fetchRest query location

/-! ## `src/main.py` — `ManagerAgent` -/

/-- The effectful sub-agents reached by `route_to_agent` that no claim
exercises (network calls and wall-clock season lookups), plus the
network remainder of the weather agent, abstracted as oracles. -/
structure SubAgents where
  weatherRest : Txt → String → QueryResponse
  crop : AgentContext → QueryResponse
  market : AgentContext → QueryResponse
  irrigation : AgentContext → QueryResponse
  pest : AgentContext → QueryResponse

/-- `ManagerAgent.route_to_agent`. -/
def ManagerAgent.route_to_agent (agents : SubAgents) (category : QueryCategory)
    (query : Txt) (location : Option String) : QueryResponse :=
  let context : AgentContext := { query := query, location := location }
  match category with
  | .weather => WeatherDataAgent.get_weather_info agents.weatherRest context
  | .crop_recommendation => agents.crop context
  | .market_price => agents.market context
  | .irrigation => agents.irrigation context
  | .pest_disease => agents.pest context
  | .finance_policy => FinancePolicyAgent.get_policy_info context
  | _ =>
    { category := .unknown
      response := str "I'm not sure how to help with that query. Please rephrase your question or contact your local agriculture officer for assistance."
      language := "en"
      source := "manager_agent"
      confidence := 0 }

/-- The record built by the `except` branch of `ManagerAgent.process_query`. -/
def ManagerAgent.error_response (language : String) : QueryResponse :=
  { category := .unknown
    response := str "I apologize, but I encountered an error processing your query. Please try again or contact your local agriculture officer."
    language := language
    source := "system_error"
    confidence := 0 }

/-- The four sequential steps of `ManagerAgent.process_query`, each given as
an oracle that either returns (`Except.ok`) or raises (`Except.error`); this
makes "a fault at step _n_" expressible.  `pipeline_steps` below instantiates
the oracles with the embedded fault-free code. -/
structure StepOracles where
  translationStep : Txt → Except String TranslationOutcome
  classifyStep : Txt → Except String Classification
  routeStep : QueryCategory → Txt → Option String → Except String QueryResponse
  translateBack : Txt → String → Except String Txt

/-- `ManagerAgent.process_query`: detect/translate, classify, route, reverse
translate, stamp the original language; any raise is caught and converted to
`error_response`, whose language is `"en"` exactly when the fault happened
before `original_language` was assigned (the `'original_language' in locals()`
test of the source). -/
def ManagerAgent.process_query (steps : StepOracles) (query : Txt)
    (location : Option String) : QueryResponse :=
  match steps.translationStep query with
  | .error _ => ManagerAgent.error_response "en"
  | .ok translation_result =>
    let original_language := translation_result.language
    let english_query := translation_result.translated_query
    match steps.classifyStep english_query with
    | .error _ => ManagerAgent.error_response original_language
    | .ok classification =>
      match queryCategoryOfString classification.category with
      | none => ManagerAgent.error_response original_language
      | some category =>
        match steps.routeStep category english_query location with
        | .error _ => ManagerAgent.error_response original_language
        | .ok response =>
          if original_language ≠ "en" then
            match steps.translateBack response.response original_language with
            | .error _ => ManagerAgent.error_response original_language
            | .ok translated_response =>
              { response with
                  response := translated_response
                  language := original_language }
          else
            { response with language := original_language }

/-- The steps of the real pipeline: every embedded step is total, so each
oracle always returns `Except.ok`.  The translation agent is run from the
context installed by `__init__` (by `process_state_independent` below its
output does not depend on that context). -/
def ManagerAgent.pipeline_steps (agents : SubAgents) : StepOracles :=
  { translationStep := fun q =>
      .ok (TranslationAgent.process TranslationAgent.initial_context q).2
    classifyStep := fun q => .ok (QueryClassifierAgent.classify q)
    routeStep := fun cat q loc => .ok (ManagerAgent.route_to_agent agents cat q loc)
    translateBack := fun resp lang => .ok (TranslationAgent.translate_response resp lang) }

/-- The full pipeline on the embedded fault-free steps. -/
def ManagerAgent.run_pipeline (agents : SubAgents) (query : Txt)
    (location : Option String) : QueryResponse :=
  ManagerAgent.process_query (ManagerAgent.pipeline_steps agents) query location

/-- An arbitrary response record, used to instantiate sub-agent oracles in
closed statements. -/
def trivialResponse : QueryResponse :=
  { category := .unknown, response := [], language := "en", source := "", confidence := 0 }

/-- Concrete instantiation of the abstracted sub-agents for closed
statements; the paths evaluated there never invoke them. -/
def trivialAgents : SubAgents :=
  { weatherRest := fun _ _ => trivialResponse
    crop := fun _ => trivialResponse
    market := fun _ => trivialResponse
    irrigation := fun _ => trivialResponse
    pest := fun _ => trivialResponse }

/-! ## General lemmas -/

/-- `pymin a b` is at most `b`. -/
theorem pymin_le_right (a b : ℚ) : pymin a b ≤ b := by
  unfold pymin
  split
  · exact le_refl b
  · exact le_of_not_lt (by assumption)

/-- Specification of Python `max(…, key=f)`: the fold either keeps the seed
(which then dominates every element of the list), or returns a list element that
strictly beats the seed and everything before it and dominates everything
after it. -/
theorem pyMaxKey_spec (f : String → Nat) (l : List String) (a : String) :
    (pyMaxKey f l a = a ∧ ∀ c ∈ l, f c ≤ f a) ∨
    (∃ l1 c l2, l = l1 ++ c :: l2 ∧ pyMaxKey f l a = c ∧ f a < f c ∧
      (∀ d ∈ l1, f d < f c) ∧ (∀ d ∈ l2, f d ≤ f c)) := by
  induction l generalizing a with
  | nil => exact Or.inl ⟨rfl, by simp⟩
  | cons hd tl ih =>
    have hstep : pyMaxKey f (hd :: tl) a = pyMaxKey f tl (if f a < f hd then hd else a) := rfl
    by_cases h : f a < f hd
    · rw [hstep, if_pos h]
      rcases ih hd with ⟨heq, hall⟩ | ⟨l1, c, l2, hsplit, heq, hlt, hbefore, hafter⟩
      · exact Or.inr ⟨[], hd, tl, by simp, heq, h, by simp, hall⟩
      · refine Or.inr ⟨hd :: l1, c, l2, by simp [hsplit], heq, lt_trans h hlt, ?_, hafter⟩
        intro d hdmem
        rcases List.mem_cons.mp hdmem with rfl | hdmem
        · exact hlt
        · exact hbefore d hdmem
    · rw [hstep, if_neg h]
      rcases ih a with ⟨heq, hall⟩ | ⟨l1, c, l2, hsplit, heq, hlt, hbefore, hafter⟩
      · refine Or.inl ⟨heq, ?_⟩
        intro d hdmem
        rcases List.mem_cons.mp hdmem with rfl | hdmem
        · exact le_of_not_lt h
        · exact hall d hdmem
      · refine Or.inr ⟨hd :: l1, c, l2, by simp [hsplit], heq, hlt, ?_, hafter⟩
        intro d hdmem
        rcases List.mem_cons.mp hdmem with rfl | hdmem
        · exact lt_of_le_of_lt (le_of_not_lt h) hlt
        · exact hbefore d hdmem

/-- `bestCategory` picks the first category (declaration order) whose score
dominates all six scores. -/
theorem bestCategory_spec (qLower : Txt) :
    ∃ l1 l2, categoryOrder = l1 ++ bestCategory qLower :: l2 ∧
      (∀ c ∈ l1, scoreCat c qLower < scoreCat (bestCategory qLower) qLower) ∧
      (∀ c ∈ categoryOrder, scoreCat c qLower ≤ scoreCat (bestCategory qLower) qLower) := by
  have hb : bestCategory qLower =
      pyMaxKey (fun cat => scoreCat cat qLower)
        ["crop_recommendation", "market_price", "irrigation", "pest_disease",
         "finance_policy"] "weather" := rfl
  have hco : categoryOrder =
      "weather" :: ["crop_recommendation", "market_price", "irrigation",
        "pest_disease", "finance_policy"] := rfl
  rcases pyMaxKey_spec (fun cat => scoreCat cat qLower)
      ["crop_recommendation", "market_price", "irrigation", "pest_disease",
       "finance_policy"] "weather" with
    ⟨heq, hall⟩ | ⟨l1, c, l2, hsplit, heq, hlt, hbefore, hafter⟩
  · refine ⟨[], ["crop_recommendation", "market_price", "irrigation",
      "pest_disease", "finance_policy"], ?_, by simp, ?_⟩
    · rw [hco, hb, heq]; rfl
    · intro c hc
      rw [hb, heq]
      rw [hco] at hc
      rcases List.mem_cons.mp hc with rfl | hc
      · exact le_refl _
      · exact hall c hc
  · refine ⟨"weather" :: l1, l2, ?_, ?_, ?_⟩
    · rw [hco, hb, heq, hsplit]; rfl
    · intro d hd
      rw [hb, heq]
      rcases List.mem_cons.mp hd with rfl | hd
      · exact hlt
      · exact hbefore d hd
    · intro d hd
      rw [hb, heq]
      rw [hco, hsplit] at hd
      rcases List.mem_cons.mp hd with rfl | hd
      · exact le_of_lt hlt
      · rcases List.mem_append.mp hd with hd | hd
        · exact le_of_lt (hbefore d hd)
        · rcases List.mem_cons.mp hd with rfl | hd
          · exact le_refl _
          · exact hafter d hd

/-- The chosen category is one of the six declared categories. -/
theorem bestCategory_mem (qLower : Txt) : bestCategory qLower ∈ categoryOrder := by
  rcases bestCategory_spec qLower with ⟨l1, l2, hsplit, -, -⟩
  rw [hsplit]
  exact List.mem_append.mpr (Or.inr (List.mem_cons_self _ _))

/-- `classify` in closed form: the low-confidence override applied to
`bestCategory` and `rawConfidence`. -/
theorem classify_eq (query : Txt) :
    QueryClassifierAgent.classify query =
      if rawConfidence query < mkRat 3 10 then
        { category := "unknown", confidence := mkRat 2 10,
          scores := categoryOrder.map (fun c => (c, scoreCat c (pyLower query))) }
      else
        { category := bestCategory (pyLower query), confidence := rawConfidence query,
          scores := categoryOrder.map (fun c => (c, scoreCat c (pyLower query))) } := rfl

/-! ## Claim theorems -/

/-- C1: for every input text, each category's score is (keyword substring
hits) × 1 + (pattern matches) × 3; the selected category is the first of the
declared order attaining the maximal score; and the computed confidence is
`min(best_score / max(word_count × 0.3, 1), 1.0)` with `word_count` the
whitespace-token count of the original input, which is what `classify`
returns whenever the low-confidence override does not fire. -/
theorem classify_scoring_selection_confidence (query : Txt) :
    (∀ c, scoreCat c (pyLower query) =
        ((keywordsOf c).filter (fun kw => containsT (str kw) (pyLower query))).length +
          3 * ((patternsOf c).filter (fun p => reSearch p (pyLower query))).length) ∧
    (∃ l1 l2, categoryOrder = l1 ++ bestCategory (pyLower query) :: l2 ∧
      (∀ c ∈ l1,
        scoreCat c (pyLower query) < scoreCat (bestCategory (pyLower query)) (pyLower query)) ∧
      (∀ c ∈ categoryOrder,
        scoreCat c (pyLower query) ≤ scoreCat (bestCategory (pyLower query)) (pyLower query))) ∧
    rawConfidence query =
      pymin ((scoreCat (bestCategory (pyLower query)) (pyLower query) : ℚ) /
          pymax ((wordCount query : ℚ) * mkRat 3 10) (mkRat 1 1)) (mkRat 1 1) ∧
    (¬ rawConfidence query < mkRat 3 10 →
      (QueryClassifierAgent.classify query).category = bestCategory (pyLower query) ∧
      (QueryClassifierAgent.classify query).confidence = rawConfidence query) := by
  refine ⟨fun c => rfl, bestCategory_spec (pyLower query), rfl, fun h => ?_⟩
  rw [classify_eq, if_neg h]
  exact ⟨rfl, rfl⟩

/-- Witness for C1 at the query `"What is the weather forecast for
tomorrow?"`, whose raw confidence is 1 ≥ 0.3. -/
theorem classify_scoring_selection_confidence_witness :
    (QueryClassifierAgent.classify (str "What is the weather forecast for tomorrow?")).category =
        bestCategory (pyLower (str "What is the weather forecast for tomorrow?")) ∧
      (QueryClassifierAgent.classify (str "What is the weather forecast for tomorrow?")).confidence =
        rawConfidence (str "What is the weather forecast for tomorrow?") :=
  (classify_scoring_selection_confidence
    (str "What is the weather forecast for tomorrow?")).2.2.2 (by decide)

/-- C3: a text with no keyword or pattern hit in any category classifies as
`"unknown"` with confidence exactly 0.2 (the word-count divisor is clamped to
1, so this includes the empty string); and any raw confidence below 0.3 is
overridden to `"unknown"`/0.2. -/
theorem classify_unknown_override (query : Txt) :
    ((∀ c ∈ categoryOrder, scoreCat c (pyLower query) = 0) →
      (QueryClassifierAgent.classify query).category = "unknown" ∧
      (QueryClassifierAgent.classify query).confidence = mkRat 2 10) ∧
    (rawConfidence query < mkRat 3 10 →
      (QueryClassifierAgent.classify query).category = "unknown" ∧
      (QueryClassifierAgent.classify query).confidence = mkRat 2 10) := by
  have hlow : ∀ h : rawConfidence query < mkRat 3 10,
      (QueryClassifierAgent.classify query).category = "unknown" ∧
      (QueryClassifierAgent.classify query).confidence = mkRat 2 10 := by
    intro h
    rw [classify_eq, if_pos h]
    exact ⟨rfl, rfl⟩
  refine ⟨fun hz => ?_, hlow⟩
  have hbest : scoreCat (bestCategory (pyLower query)) (pyLower query) = 0 :=
    hz _ (bestCategory_mem (pyLower query))
  have hraw : rawConfidence query = 0 := by
    unfold rawConfidence
    rw [hbest]
    have h0 : ((0 : Nat) : ℚ) /
        pymax ((wordCount query : ℚ) * mkRat 3 10) (mkRat 1 1) = 0 := by
      rw [Nat.cast_zero, zero_div]
    rw [h0]
    decide
  exact hlow (by rw [hraw]; decide)

/-- Witness for C3: the spec's generic query and the empty string both have
all-zero scores and classify as `"unknown"` with confidence 0.2. -/
theorem classify_unknown_override_witness :
    ((QueryClassifierAgent.classify (str "Tell me about farming")).category = "unknown" ∧
      (QueryClassifierAgent.classify (str "Tell me about farming")).confidence = mkRat 2 10) ∧
    ((QueryClassifierAgent.classify (str "")).category = "unknown" ∧
      (QueryClassifierAgent.classify (str "")).confidence = mkRat 2 10) :=
  ⟨(classify_unknown_override (str "Tell me about farming")).1 (by decide),
   (classify_unknown_override (str "")).1 (by decide)⟩

/-- C9: every classification has confidence 0.2 (exactly, when the category is
`"unknown"`) or in `[0.3, 1]` (when it is not); no confidence ever lies
strictly between 0 and 0.2 or strictly between 0.2 and 0.3.  (The `except`
branch of the source, which returns confidence 0.0, is unreachable: the
embedded body is total.) -/
theorem classify_confidence_partition (query : Txt) :
    ((QueryClassifierAgent.classify query).category ≠ "unknown" →
      mkRat 3 10 ≤ (QueryClassifierAgent.classify query).confidence ∧
      (QueryClassifierAgent.classify query).confidence ≤ mkRat 1 1) ∧
    ((QueryClassifierAgent.classify query).category = "unknown" →
      (QueryClassifierAgent.classify query).confidence = mkRat 2 10) ∧
    ¬(0 < (QueryClassifierAgent.classify query).confidence ∧
        (QueryClassifierAgent.classify query).confidence < mkRat 2 10) ∧
    ¬(mkRat 2 10 < (QueryClassifierAgent.classify query).confidence ∧
        (QueryClassifierAgent.classify query).confidence < mkRat 3 10) := by
  by_cases h : rawConfidence query < mkRat 3 10
  · have hcat : (QueryClassifierAgent.classify query).category = "unknown" := by
      rw [classify_eq, if_pos h]
    have hc : (QueryClassifierAgent.classify query).confidence = mkRat 2 10 := by
      rw [classify_eq, if_pos h]
    refine ⟨fun hne => absurd hcat hne, fun _ => hc, ?_, ?_⟩
    · rintro ⟨-, h2⟩
      rw [hc] at h2
      exact absurd h2 (by decide)
    · rintro ⟨h1, -⟩
      rw [hc] at h1
      exact absurd h1 (by decide)
  · have hcat : (QueryClassifierAgent.classify query).category =
        bestCategory (pyLower query) := by
      rw [classify_eq, if_neg h]
    have hc : (QueryClassifierAgent.classify query).confidence = rawConfidence query := by
      rw [classify_eq, if_neg h]
    have hge : mkRat 3 10 ≤ rawConfidence query := le_of_not_lt h
    have hle : rawConfidence query ≤ mkRat 1 1 := pymin_le_right _ _
    have h23 : mkRat 2 10 < mkRat 3 10 := by decide
    refine ⟨fun _ => ⟨hc ▸ hge, hc ▸ hle⟩, fun hu => ?_, ?_, ?_⟩
    · exfalso
      have hmem := bestCategory_mem (pyLower query)
      rw [hcat] at hu
      rw [hu] at hmem
      exact absurd hmem (by decide)
    · rintro ⟨-, h2⟩
      rw [hc] at h2
      exact absurd (lt_trans h2 h23) (not_lt.mpr hge)
    · rintro ⟨-, h2⟩
      rw [hc] at h2
      exact absurd h2 (not_lt.mpr hge)

/-- Witness for C9 on a non-`"unknown"` classification. -/
theorem classify_confidence_partition_witness :
    mkRat 3 10 ≤
        (QueryClassifierAgent.classify (str "PM Kisan scheme details")).confidence ∧
      (QueryClassifierAgent.classify (str "PM Kisan scheme details")).confidence ≤
        mkRat 1 1 :=
  (classify_confidence_partition (str "PM Kisan scheme details")).1 (by decide)

/-- A step-oracle set in which every step raises, used to witness the fault
containment of the orchestrator. -/
def faultySteps : StepOracles :=
  { translationStep := fun _ => .error "boom"
    classifyStep := fun _ => .error "boom"
    routeStep := fun _ _ _ => .error "boom"
    translateBack := fun _ _ => .error "boom" }

/-- C2: whenever every step of `process_query` returns normally, the language
of the returned record is exactly the tag produced by the initial detection
step, whichever responder handled the request and whether or not a reverse
translation was applied. -/
theorem pipeline_language_roundtrip (steps : StepOracles) (query : Txt)
    (location : Option String) (tr : TranslationOutcome) (cl : Classification)
    (cat : QueryCategory) (resp : QueryResponse)
    (h1 : steps.translationStep query = .ok tr)
    (h2 : steps.classifyStep tr.translated_query = .ok cl)
    (h3 : queryCategoryOfString cl.category = some cat)
    (h4 : steps.routeStep cat tr.translated_query location = .ok resp)
    (h5 : ∀ e, steps.translateBack resp.response tr.language ≠ .error e) :
    (ManagerAgent.process_query steps query location).language = tr.language := by
  simp only [ManagerAgent.process_query, h1, h2, h3, h4]
  by_cases he : tr.language = "en"
  · rw [if_neg (fun hc => hc he)]
  · rw [if_pos he]
    cases heq : steps.translateBack resp.response tr.language with
    | error e => exact absurd heq (h5 e)
    | ok t => rfl

/-- Witness for C2: the fault-free pipeline on an English query. -/
theorem pipeline_language_roundtrip_witness :
    (ManagerAgent.process_query (ManagerAgent.pipeline_steps trivialAgents)
      (str "hello") none).language = "en" :=
  pipeline_language_roundtrip (ManagerAgent.pipeline_steps trivialAgents)
    (str "hello") none
    { language := "en", translated_query := str "hello", confidence := mkRat 1 1 }
    (QueryClassifierAgent.classify (str "hello")) QueryCategory.unknown
    (ManagerAgent.route_to_agent trivialAgents QueryCategory.unknown (str "hello") none)
    rfl rfl (by decide) rfl (fun e h => by cases h)

/-- C4: a fault at any step of `process_query` is caught and converted into
the fixed system-error record — category `"unknown"`, source
`"system_error"`, confidence 0 and a non-empty apology — whose language is
the detected tag when detection had completed and `"en"` otherwise. -/
theorem pipeline_fault_containment (steps : StepOracles) (query : Txt)
    (location : Option String) :
    ((∃ e, steps.translationStep query = .error e) →
      ManagerAgent.process_query steps query location = ManagerAgent.error_response "en") ∧
    (∀ tr, steps.translationStep query = .ok tr →
      ((∃ e, steps.classifyStep tr.translated_query = .error e) ∨
       (∃ cl, steps.classifyStep tr.translated_query = .ok cl ∧
          queryCategoryOfString cl.category = none) ∨
       (∃ cl cat e, steps.classifyStep tr.translated_query = .ok cl ∧
          queryCategoryOfString cl.category = some cat ∧
          steps.routeStep cat tr.translated_query location = .error e) ∨
       (∃ cl cat resp e, steps.classifyStep tr.translated_query = .ok cl ∧
          queryCategoryOfString cl.category = some cat ∧
          steps.routeStep cat tr.translated_query location = .ok resp ∧
          tr.language ≠ "en" ∧
          steps.translateBack resp.response tr.language = .error e) →
        ManagerAgent.process_query steps query location =
          ManagerAgent.error_response tr.language)) ∧
    (∀ l, (ManagerAgent.error_response l).category = QueryCategory.unknown ∧
      (ManagerAgent.error_response l).source = "system_error" ∧
      (ManagerAgent.error_response l).confidence = 0 ∧
      (ManagerAgent.error_response l).response ≠ [] ∧
      (ManagerAgent.error_response l).language = l) := by
  have hne : ∀ l, (ManagerAgent.error_response l).response ≠ [] := by
    intro l
    rw [show (ManagerAgent.error_response l).response =
        str "I apologize, but I encountered an error processing your query. Please try again or contact your local agriculture officer." from rfl]
    decide
  refine ⟨?_, ?_, fun l => ⟨rfl, rfl, rfl, hne l, rfl⟩⟩
  · rintro ⟨e, he⟩
    simp only [ManagerAgent.process_query, he]
  · rintro tr htr (⟨e, he⟩ | ⟨cl, hcl, hcat⟩ | ⟨cl, cat, e, hcl, hcat, hroute⟩ |
      ⟨cl, cat, resp, e, hcl, hcat, hroute, hlang, hback⟩)
    · simp only [ManagerAgent.process_query, htr, he]
    · simp only [ManagerAgent.process_query, htr, hcl, hcat]
    · simp only [ManagerAgent.process_query, htr, hcl, hcat, hroute]
    · simp only [ManagerAgent.process_query, htr, hcl, hcat, hroute]
      rw [if_pos hlang, hback]

/-- Witness for C4: every step raising at once yields the English system-error
record. -/
theorem pipeline_fault_containment_witness :
    ManagerAgent.process_query faultySteps (str "hi") none =
      ManagerAgent.error_response "en" :=
  (pipeline_fault_containment faultySteps (str "hi") none).1 ⟨"boom", rfl⟩

/-- Counterexample for C5 as stated: on `"What is the weather forecast for
tomorrow?"` with no location, the full pipeline's confidence is 0, not
greater than 0.3 (the weather responder returns the location prompt with
confidence 0). -/
theorem weather_no_location_counterexample :
    ¬ (mkRat 3 10 <
        (ManagerAgent.run_pipeline trivialAgents
          (str "What is the weather forecast for tomorrow?") none).confidence) := by
  decide

/-- C5 (amended): on `"What is the weather forecast for tomorrow?"` with no
location the pipeline returns category `"weather"` with the
location-request message and confidence 0; the classification step's own
confidence is 1 > 0.3. -/
theorem weather_no_location_pipeline (agents : SubAgents) :
    (ManagerAgent.run_pipeline agents
        (str "What is the weather forecast for tomorrow?") none).category =
      QueryCategory.weather ∧
    (ManagerAgent.run_pipeline agents
        (str "What is the weather forecast for tomorrow?") none).response =
      str "Please provide a location to get weather information." ∧
    (ManagerAgent.run_pipeline agents
        (str "What is the weather forecast for tomorrow?") none).confidence = 0 ∧
    mkRat 3 10 <
      (QueryClassifierAgent.classify
        (str "What is the weather forecast for tomorrow?")).confidence :=
  ⟨rfl, rfl, rfl, by decide⟩

/-- Counterexample for C6 as stated: the fallback record's source tag is
`"manager_agent"`, not `"manager"`. -/
theorem fallback_source_counterexample :
    (ManagerAgent.route_to_agent trivialAgents QueryCategory.unknown
        (str "hello") none).source ≠ "manager" := by
  decide

/-- C6 (amended): routing an `"unknown"` query — or the `translation`
category, which has no configured responder — returns the fallback record:
category `"unknown"`, confidence 0 (the low-confidence constant), a
please-rephrase message, and source tag `"manager_agent"`. -/
theorem fallback_route (agents : SubAgents) (query : Txt) (location : Option String) :
    (ManagerAgent.route_to_agent agents QueryCategory.unknown query location).category =
      QueryCategory.unknown ∧
    (ManagerAgent.route_to_agent agents QueryCategory.unknown query location).confidence = 0 ∧
    containsT (str "rephrase")
      (ManagerAgent.route_to_agent agents QueryCategory.unknown query location).response = true ∧
    (ManagerAgent.route_to_agent agents QueryCategory.unknown query location).source =
      "manager_agent" ∧
    ManagerAgent.route_to_agent agents QueryCategory.translation query location =
      ManagerAgent.route_to_agent agents QueryCategory.unknown query location := by
  refine ⟨rfl, rfl, ?_, rfl, rfl⟩
  rw [show (ManagerAgent.route_to_agent agents QueryCategory.unknown query location).response =
      str "I'm not sure how to help with that query. Please rephrase your question or contact your local agriculture officer for assistance." from rfl]
  decide

/-- C7: on `"PM Kisan scheme details"` with no location the pipeline returns
category `"finance_policy"`, confidence at least 0.9, and a response
containing the scheme's official benefit amount `"6000 per year"`. -/
theorem pm_kisan_pipeline (agents : SubAgents) :
    (ManagerAgent.run_pipeline agents (str "PM Kisan scheme details") none).category =
      QueryCategory.finance_policy ∧
    mkRat 9 10 ≤
      (ManagerAgent.run_pipeline agents (str "PM Kisan scheme details") none).confidence ∧
    containsT (str "6000 per year")
      (ManagerAgent.run_pipeline agents (str "PM Kisan scheme details") none).response =
      true := by
  refine ⟨rfl, ?_, ?_⟩
  · rw [show (ManagerAgent.run_pipeline agents
        (str "PM Kisan scheme details") none).confidence = mkRat 9 10 from rfl]
  · rw [show (ManagerAgent.run_pipeline agents
        (str "PM Kisan scheme details") none).response =
        FinancePolicyAgent.get_scheme_details "pm_kisan" from rfl]
    decide

/-- C8: `translate_response` with target tag `"en"` is the identity on every
response text, and composed with `process` the round trip is the identity on
every input detected as English. -/
theorem translate_response_en_identity :
    (∀ response : Txt, TranslationAgent.translate_response response "en" = response) ∧
    (∀ (ctx : TAContext) (query : Txt), TranslationAgent.detect_language query = "en" →
      TranslationAgent.translate_response
        ((TranslationAgent.process ctx query).2.translated_query) "en" = query) := by
  refine ⟨fun r => rfl, fun ctx query h => ?_⟩
  have hq : (TranslationAgent.process ctx query).2.translated_query = query := by
    simp only [TranslationAgent.process, h, if_pos]
  rw [hq]
  rfl

/-- Witness for C8 on an English query. -/
theorem translate_response_en_identity_witness :
    TranslationAgent.translate_response
      ((TranslationAgent.process TranslationAgent.initial_context
          (str "hello")).2.translated_query) "en" = str "hello" :=
  translate_response_en_identity.2 TranslationAgent.initial_context (str "hello") (by decide)

/-- C10: the outcome of `TranslationAgent.process` depends only on the query:
runs started from any two stored contexts return the same
language/translated-query/confidence record (the mutable `current_context`
is written but never read). -/
theorem process_state_independent (s1 s2 : TAContext) (query : Txt) :
    (TranslationAgent.process s1 query).2 = (TranslationAgent.process s2 query).2 := rfl
